import Mathlib

/-!
Verification of the Behavior Tracking & Escalation Engine.

Shallow embedding of the Python backend:
* `behavior/categorizer.py`  (`WindowCategorizer.categorize`)
* `behavior/tracker.py`      (`BehaviorTracker.record_activity`, `_update_streak`, `reset`)
* `behavior/nudges.py`       (`NudgeEngine.get_nudge`)
* `agents/smart_nudge.py`    (`SmartNudgeAgent.process`, `_handle_strict_mode`,
                              `_should_escalate`, `_load_state`)

Conventions: `datetime` values and second-durations are rationals (seconds);
Python `Optional` becomes `Option`; per-object mutable attributes become
explicit state records threaded through step functions; external collaborators
(database settings, notification/intervention sinks, the XP scoring service)
become input parameters or boolean result fields.
-/

/- Batteries marks the rational-field operations `@[irreducible]`, which stops
concrete evaluation of the embedded step functions; restore default
reducibility for this file so witnesses can be checked by `decide`. -/
attribute [local semireducible] Rat.add Rat.sub Rat.mul Rat.inv

/-- The three productivity categories (`"focus"` / `"neutral"` / `"distraction"`
strings in the Python code). -/
inductive Cat where
  | focus
  | neutral
  | distraction
deriving DecidableEq, Repr

/-! ## String helpers

The Python code matches lowercased window titles.  Titles are modelled as
`String`; matching works on the underlying `List Char`. -/

/-- Lowercased character list of a string (Python `s.lower()` on ASCII data). -/
def lowerL (s : String) : List Char :=
  s.data.map Char.toLower

/-- Holds when `needle` is a leading segment of `hay` (character lists). -/
def leadsL : List Char → List Char → Bool
  | [], _ => true
  | _ :: _, [] => false
  | c :: cs, d :: ds => c == d && leadsL cs ds

/-- Python substring test `needle in hay` on character lists. -/
def strContains (hay needle : List Char) : Bool :=
  match hay with
  | [] => needle.isEmpty
  | _ :: tl => leadsL needle hay || strContains tl needle

/-! ## Mini-regex

`WindowCategorizer` compiles each keyword with `re.compile(keyword, re.IGNORECASE)`
and tests with `pattern.search(window_lower)`.  The keyword lists only use the
metacharacters `.` (any char) and `+` (one-or-more of the previous atom), so a
pattern is a sequence of tokens: a literal or a wildcard, optionally starred
with `+`. -/

/-- A single regex atom: literal character or `.` wildcard. -/
inductive RAtom where
  | lit (c : Char)
  | dot
deriving DecidableEq, Repr

/-- Does a regex atom match one character? -/
def ratomMatch : RAtom → Char → Bool
  | .lit c, d => c == d
  | .dot, _ => true

/-- A regex token: an atom, possibly repeated one-or-more times (`+`). -/
structure RTok where
  atom : RAtom
  plus : Bool
deriving DecidableEq, Repr

/-- Match a token sequence against a leading segment of the input.  Structural
recursion on the character list: a `+` token consumes one character and either
moves on or stays to consume more. -/
def reMatchL : List Char → List RTok → Bool
  | _, [] => true
  | [], _ :: _ => false
  | c :: cs, t :: ts =>
    if ratomMatch t.atom c then
      if t.plus then reMatchL cs ts || reMatchL cs (t :: ts)
      else reMatchL cs ts
    else false

/-- Python `pattern.search`: the pattern matches starting at some position. -/
def reSearch (toks : List RTok) : List Char → Bool
  | [] => reMatchL [] toks
  | c :: cs => reMatchL (c :: cs) toks || reSearch toks cs

/-- Compile a keyword string (as Python `re.compile` reads it): `.` is a
wildcard, `+` repeats the previous atom, everything else is literal. -/
def compilePat : List Char → List RTok
  | [] => []
  | '.' :: '+' :: rest => ⟨.dot, true⟩ :: compilePat rest
  | '.' :: rest => ⟨.dot, false⟩ :: compilePat rest
  | c :: '+' :: rest => ⟨.lit c, true⟩ :: compilePat rest
  | c :: rest => ⟨.lit c, false⟩ :: compilePat rest

/-- Regex-search a keyword inside a lowercased window title, as
`self.focus_patterns[i].search(window_lower)` does. -/
def keywordSearch (keyword : String) (window : List Char) : Bool :=
  reSearch (compilePat keyword.data) window

/-! ## WindowCategorizer (`behavior/categorizer.py`) -/

/-- List `self.focus_keywords` of `WindowCategorizer.__init__`. -/
def focus_keywords : List String :=
  ["cursor", "vscode", "visual studio code", "code",
   "pycharm", "intellij", "webstorm", "idea",
   "sublime", "atom", "vim", "neovim", "emacs",
   "xcode", "android studio", "studio",
   "terminal", "iterm", "alacritty", "kitty",
   "notion", "obsidian", "roam", "logseq",
   "slack", "teams", "discord",
   "figma", "sketch", "adobe xd",
   "jupyter", "notebook", "colab",
   "github desktop", "gitkraken", "sourcetree"]

/-- List `self.distraction_keywords` of `WindowCategorizer.__init__`. -/
def distraction_keywords : List String :=
  ["youtube", "youtu.be",
   "instagram", "insta",
   "tiktok", "tiktok.com",
   "twitter", "x.com", "twitter.com",
   "facebook", "fb.com",
   "reddit", "redd.it",
   "netflix", "hulu", "disney+", "disney plus",
   "spotify", "apple music",
   "twitch", "twitch.tv",
   "pinterest", "pinterest.com",
   "snapchat", "snap",
   "discord",
   "games", "steam", "epic games",
   "playstation", "xbox"]

/-- List `self.neutral_keywords` of `WindowCategorizer.__init__`. -/
def neutral_keywords : List String :=
  ["finder", "explorer", "file manager",
   "settings", "preferences", "system preferences",
   "activity monitor", "task manager",
   "calendar", "mail", "messages",
   "safari", "chrome", "firefox", "edge",
   "lifeos", "life-os", "life coach", "lifecoach",
   "lifecoachagent", "life-coach-agent", "lifecoachagent-desktop"]

/-- The tracking app's own identifiers, inlined in `categorize`. -/
def lifeosIdents : List String :=
  ["lifeos", "life-os", "life coach", "lifecoach",
   "lifecoachagent", "life-coach-agent", "lifecoachagent-desktop"]

/-- A goal profile: the four optional keyword lists a goal-mapper profile dict
carries (`.get(..., [])` defaults absent fields to empty lists). -/
structure GoalProfile where
  focus_apps : List String
  distraction_apps : List String
  neutral_apps : List String
  keywords : List String
deriving DecidableEq, Repr

/-- Built-in fallback of `categorize` (lines 118-135): focus patterns, then
distraction patterns, then neutral patterns, regex-searched; default neutral. -/
def builtinCat (w : List Char) : Cat :=
  if focus_keywords.any fun k => keywordSearch k w then .focus
  else if distraction_keywords.any fun k => keywordSearch k w then .distraction
  else if neutral_keywords.any fun k => keywordSearch k w then .neutral
  else .neutral

/-- Method `WindowCategorizer.categorize`: empty title is neutral; the app's own
identifiers are neutral; then the profile lists (plain substring matching),
then the built-in tables (regex search), then neutral. -/
def categorize (window_title : String) (goal_profile : Option GoalProfile) : Cat :=
  if window_title = "" then .neutral
  else
    let w := lowerL window_title
    if lifeosIdents.any fun k => strContains w k.data then .neutral
    else
      match goal_profile with
      | some p =>
        if p.focus_apps.any fun a => strContains w (lowerL a) then .focus
        else if p.distraction_apps.any fun a => strContains w (lowerL a) then .distraction
        else if p.neutral_apps.any fun a => strContains w (lowerL a) then .neutral
        else if p.keywords.any fun k => strContains w (lowerL k) then .focus
        else builtinCat w
      | none => builtinCat w

/-- Built-in fallback as the specification words it: case-insensitive plain
substring matching against the same three tables, in the same order.  Written
from the spec sentence "first match wins, case-insensitive substring matching";
used to compare the spec's reading with the code's regex search. -/
def builtinCatSub (w : List Char) : Cat :=
  if focus_keywords.any fun k => strContains w (lowerL k) then .focus
  else if distraction_keywords.any fun k => strContains w (lowerL k) then .distraction
  else if neutral_keywords.any fun k => strContains w (lowerL k) then .neutral
  else .neutral

/-- The categorizer as the claim words it: identical priority order, but every
table—including the built-in ones—is matched by case-insensitive substring
containment. -/
def categorizeClaimSub (window_title : String) (goal_profile : Option GoalProfile) : Cat :=
  if window_title = "" then .neutral
  else
    let w := lowerL window_title
    if lifeosIdents.any fun k => strContains w k.data then .neutral
    else
      match goal_profile with
      | some p =>
        if p.focus_apps.any fun a => strContains w (lowerL a) then .focus
        else if p.distraction_apps.any fun a => strContains w (lowerL a) then .distraction
        else if p.neutral_apps.any fun a => strContains w (lowerL a) then .neutral
        else if p.keywords.any fun k => strContains w (lowerL k) then .focus
        else builtinCatSub w
      | none => builtinCatSub w

/-- First-match-wins over a prioritised rule list: each rule is a fired test
paired with the category it yields; the first true test wins, else the
default.  Combinator for stating the categorizer's priority order. -/
def firstCat : List (Bool × Cat) → Cat → Cat
  | [], d => d
  | (b, c) :: rest, d => if b then c else firstCat rest d

/-- The profile rules of the priority order, as substring tests (absent
profile contributes no rules). -/
def profileRules (w : List Char) : Option GoalProfile → List (Bool × Cat)
  | none => []
  | some p =>
    [(p.focus_apps.any fun a => strContains w (lowerL a), .focus),
     (p.distraction_apps.any fun a => strContains w (lowerL a), .distraction),
     (p.neutral_apps.any fun a => strContains w (lowerL a), .neutral),
     (p.keywords.any fun k => strContains w (lowerL k), .focus)]

/-- The built-in-table rules of the priority order, as regex searches. -/
def builtinRules (w : List Char) : List (Bool × Cat) :=
  [(focus_keywords.any fun k => keywordSearch k w, .focus),
   (distraction_keywords.any fun k => keywordSearch k w, .distraction),
   (neutral_keywords.any fun k => keywordSearch k w, .neutral)]

/-- The categorizer as the amended claim words it: empty titles are neutral,
then first match wins over the priority list — self identifiers (substring,
neutral), the four profile lists (substring), the three built-in tables
(regex search with `.` wildcard and `+` repetition) — with neutral as the
default. -/
def categorizeAmended (window_title : String) (goal_profile : Option GoalProfile) : Cat :=
  if window_title = "" then .neutral
  else
    let w := lowerL window_title
    firstCat ((lifeosIdents.any fun k => strContains w k.data, Cat.neutral) ::
      profileRules w goal_profile ++ builtinRules w) .neutral

/-! ## BehaviorTracker (`behavior/tracker.py`) -/

/-- One entry of the append-only event log (`behavior/models.py` ActivityEvent). -/
structure ActivityEvent where
  timestamp : ℚ
  active_window : String
  category : Cat
  duration_seconds : ℚ
  streak_seconds : ℚ
  is_app_switch : Bool
deriving DecidableEq, Repr

/-- One value of the `self.app_usage` defaultdict. -/
structure AppUsage where
  total_seconds : ℚ
  focus_seconds : ℚ
  category : Cat
  usage_count : Nat
deriving DecidableEq, Repr

/-- The defaultdict default: `{"total_seconds": 0.0, "focus_seconds": 0.0,
"category": "neutral", "usage_count": 0}`. -/
def usageDefault : AppUsage :=
  { total_seconds := 0, focus_seconds := 0, category := .neutral, usage_count := 0 }

/-- Read `self.app_usage[k]` without inserting (default when absent). -/
def usageFind (m : List (String × AppUsage)) (k : String) : AppUsage :=
  match m with
  | [] => usageDefault
  | (k0, v) :: rest => if k0 = k then v else usageFind rest k

/-- Update `self.app_usage[k]` in place, materialising the defaultdict default
for a missing key (new keys go to the end, as Python dicts do). -/
def usageUpdate (m : List (String × AppUsage)) (k : String) (f : AppUsage → AppUsage) :
    List (String × AppUsage) :=
  match m with
  | [] => [(k, f usageDefault)]
  | (k0, v) :: rest =>
    if k0 = k then (k0, f v) :: rest else (k0, v) :: usageUpdate rest k f

/-- The mutable attributes of `BehaviorTracker` that `record_activity`,
`reset` and the claims touch (persistence bookkeeping is external I/O and
is not part of the state). -/
structure TrackerState where
  events : List ActivityEvent
  session_start : Option ℚ
  current_window : Option String
  current_category : Option Cat
  previous_category : Option Cat
  current_streak_start : Option ℚ
  current_streak_category : Option Cat
  last_poll_time : Option ℚ
  current_goal : Option String
  current_profile : Option GoalProfile
  goal_start_time : Option ℚ
  daily_goal_minutes : Nat
  longest_focus_streak_seconds : ℚ
  app_usage : List (String × AppUsage)
  drift_events : List ℚ
deriving DecidableEq, Repr

/-- Constructor `BehaviorTracker.__init__` (fresh tracker). -/
def initTracker : TrackerState :=
  { events := [], session_start := none, current_window := none,
    current_category := none, previous_category := none,
    current_streak_start := none, current_streak_category := none,
    last_poll_time := none, current_goal := none, current_profile := none,
    goal_start_time := none, daily_goal_minutes := 60,
    longest_focus_streak_seconds := 0, app_usage := [], drift_events := [] }

/-- Result of `BehaviorTracker._update_streak`: the returned streak duration
plus the new values of the three streak attributes it may mutate. -/
structure StreakOut where
  streak_seconds : ℚ
  streak_start : Option ℚ
  streak_category : Option Cat
  longest : ℚ
deriving DecidableEq, Repr

/-- Method `BehaviorTracker._update_streak`.  When no streak is open, a focus sample
opens one at `ts` and immediately falls into the continue branch with duration
`ts - ts`; a non-focus sample returns 0 leaving the state alone.  With an open
streak, focus-on-focus extends it (raising the longest high-water mark when
exceeded), focus-after-non-focus restarts at `ts`, and a non-focus sample
closes a focus streak (recording the sample's category). -/
def updateStreak (start0 : Option ℚ) (cat0 : Option Cat) (longest0 : ℚ)
    (category : Cat) (ts : ℚ) : StreakOut :=
  match start0 with
  | none =>
    if category = Cat.focus then
      { streak_seconds := ts - ts, streak_start := some ts,
        streak_category := some .focus,
        longest := if ts - ts > longest0 then ts - ts else longest0 }
    else ⟨0, none, cat0, longest0⟩
  | some t0 =>
    if category = Cat.focus then
      if cat0 = some Cat.focus then
        { streak_seconds := ts - t0, streak_start := some t0,
          streak_category := cat0,
          longest := if ts - t0 > longest0 then ts - t0 else longest0 }
      else ⟨0, some ts, some .focus, longest0⟩
    else
      if cat0 = some Cat.focus then ⟨0, none, some category, longest0⟩
      else ⟨0, some t0, cat0, longest0⟩

/-- Method `BehaviorTracker.record_activity` (the `goal` argument only feeds an unused
local and is dropped).  Returns the new state and the appended event. -/
def record_activity (s : TrackerState) (window_title : String) (timestamp : ℚ) :
    TrackerState × ActivityEvent :=
  let session_start := match s.session_start with
    | none => some timestamp
    | some t => some t
  let last_poll := match s.session_start with
    | none => some timestamp
    | some _ => s.last_poll_time
  let category := categorize window_title s.current_profile
  let drift_detected :=
    s.current_category = some Cat.focus ∧ (category = .distraction ∨ category = .neutral)
  let drift_events :=
    if drift_detected then s.drift_events ++ [timestamp] else s.drift_events
  let is_app_switch : Bool := ¬ (s.current_window = some window_title)
  let duration_seconds : ℚ := match last_poll with
    | none => 0
    | some lp => min (timestamp - lp) 300
  let st := updateStreak s.current_streak_start s.current_streak_category
    s.longest_focus_streak_seconds category timestamp
  let app_usage :=
    if window_title = "" then s.app_usage
    else usageUpdate s.app_usage window_title fun u =>
      { total_seconds := u.total_seconds + duration_seconds,
        focus_seconds :=
          if category = Cat.focus then u.focus_seconds + duration_seconds
          else u.focus_seconds,
        category := category,
        usage_count := u.usage_count + 1 }
  let event : ActivityEvent :=
    { timestamp := timestamp,
      active_window := if window_title = "" then "Unknown" else window_title,
      category := category,
      duration_seconds := duration_seconds,
      streak_seconds := st.streak_seconds,
      is_app_switch := is_app_switch }
  ({ s with
      events := s.events ++ [event],
      session_start := session_start,
      current_window := some window_title,
      current_category := some category,
      previous_category := s.current_category,
      current_streak_start := st.streak_start,
      current_streak_category := st.streak_category,
      last_poll_time := some timestamp,
      longest_focus_streak_seconds := st.longest,
      app_usage := app_usage,
      drift_events := drift_events }, event)

/-- Fold a list of `(window_title, timestamp)` samples through
`record_activity`, keeping only the final state. -/
def runRecord (s : TrackerState) : List (String × ℚ) → TrackerState
  | [] => s
  | (w, t) :: rest => runRecord (record_activity s w t).1 rest

/-- Method `BehaviorTracker.reset` (the trailing `save_state` call is external I/O).
Goal attributes — and `previous_category`, which the method does not touch —
are carried over. -/
def trackerReset (s : TrackerState) : TrackerState :=
  { s with
      events := [],
      session_start := none,
      current_window := none,
      current_category := none,
      current_streak_start := none,
      current_streak_category := none,
      last_poll_time := none,
      longest_focus_streak_seconds := 0,
      app_usage := [],
      drift_events := [] }

/-- A tracker state with an open focus streak started at time 0 (the state a
fresh tracker reaches after one focus sample at 0); concrete instantiation
point for streak lemmas. -/
def streakWitState : TrackerState :=
  { initTracker with
      session_start := some 0, current_window := some "Cursor",
      current_category := some Cat.focus, current_streak_start := some 0,
      current_streak_category := some Cat.focus, last_poll_time := some 0 }

/-! ## NudgeEngine (`behavior/nudges.py`)

`get_nudge` returns one of seven message shapes (the exact f-string text only
varies with the optional goal text, never the class); the embedding returns
the class that fired. -/

/-- The nudge classes `get_nudge` can emit, in source order. -/
inductive NudgeMsg where
  | celebration
  | driftWarn
  | prolongedDistraction
  | milestone10
  | milestone20
  | milestone30
  | goalAlignment
deriving DecidableEq, Repr

/-- Mutable attributes of `NudgeEngine` (`nudge_cooldown_seconds` is the
constant 60). -/
structure EngineState where
  last_nudge_time : Option ℚ
  drift_detected : Bool
  last_category : Option Cat
deriving DecidableEq, Repr

/-- Constructor `NudgeEngine.__init__` / `NudgeEngine.reset`. -/
def initEngine : EngineState :=
  { last_nudge_time := none, drift_detected := false, last_category := none }

/-- The arguments of one `get_nudge` call, with `datetime.now()` made explicit
(`goal` and `focus_time_minutes` only shape the message text and are dropped). -/
structure NudgeCall where
  now : ℚ
  current_category : Cat
  previous_category : Option Cat
  current_streak_seconds : ℚ
  goal_profile : Option GoalProfile
  distraction_time_minutes : ℚ
  active_window : Option String
  daily_complete : Bool
deriving Repr

/-- Python `not self.last_nudge_time or (now - self.last_nudge_time).total_seconds() > gap`. -/
def noneOrGapGT (lnt : Option ℚ) (now gap : ℚ) : Bool :=
  match lnt with
  | none => true
  | some t => decide (now - t > gap)

/-- Python `not self.last_nudge_time` or elapsed `≥ gap` (the long-distraction gate). -/
def noneOrGapGE (lnt : Option ℚ) (now gap : ℚ) : Bool :=
  match lnt with
  | none => true
  | some t => decide (now - t ≥ gap)

/-- Python `self.last_nudge_time and (now - self.last_nudge_time).total_seconds() > gap`
(false when no nudge time is recorded). -/
def someAndGapGT (lnt : Option ℚ) (now gap : ℚ) : Bool :=
  match lnt with
  | none => false
  | some t => decide (now - t > gap)

/-- Python `self.last_category != "focus" or not self.last_nudge_time`, the
shared inner gate of the milestone and goal-alignment classes. -/
def milestoneGate (s : EngineState) : Bool :=
  decide (s.last_category ≠ some Cat.focus) || decide (s.last_nudge_time = none)

/-- One profile keyword occurs in the lowercased active window (the
goal-alignment loop; an absent profile or an absent or empty window — falsy in
the Python guard — checks nothing). -/
def keywordAligned (goal_profile : Option GoalProfile) (active_window : Option String) : Bool :=
  match goal_profile, active_window with
  | some p, some w =>
    decide (w ≠ "") && p.keywords.any fun k => strContains (lowerL w) (lowerL k)
  | _, _ => false

/-- The streak-minutes window `[lo, lo+1)` of a milestone check. -/
def streakWindow (streak_seconds lo : ℚ) : Bool :=
  decide (streak_seconds / 60 ≥ lo) && decide (streak_seconds / 60 < lo + 1)

/-- Body of `NudgeEngine.get_nudge` after the global-cooldown gate: the five
nudge classes in evaluation order, then the fall-through drift-flag clear and
`last_category` update. -/
def getNudgeBody (s : EngineState) (i : NudgeCall) : EngineState × Option NudgeMsg :=
  -- goal completion notification (5 min gate on top of the global one)
  if i.daily_complete && !s.drift_detected && noneOrGapGT s.last_nudge_time i.now 300 then
    ({ s with last_nudge_time := some i.now }, some .celebration)
  -- drift: focus → distraction/neutral, re-fire for the same episode only after 30s
  else if (decide (i.previous_category = some Cat.focus) &&
        (decide (i.current_category = Cat.distraction) ||
          decide (i.current_category = Cat.neutral))) &&
      (!s.drift_detected || someAndGapGT s.last_nudge_time i.now 30) then
    ({ s with drift_detected := true, last_nudge_time := some i.now }, some .driftWarn)
  -- long distraction session: every 300s once distraction_time_minutes ≥ 10
  else if (decide (i.current_category = Cat.distraction) &&
        decide (i.distraction_time_minutes ≥ 10)) &&
      noneOrGapGE s.last_nudge_time i.now 300 then
    ({ s with last_category := some i.current_category, last_nudge_time := some i.now },
      some .prolongedDistraction)
  -- streak milestones at 10/20/30 minutes, half-open one-minute windows
  else if (decide (i.current_category = Cat.focus) &&
        decide (i.current_streak_seconds > 0)) &&
      streakWindow i.current_streak_seconds 10 && milestoneGate s then
    ({ s with last_category := some i.current_category, last_nudge_time := some i.now },
      some .milestone10)
  else if (decide (i.current_category = Cat.focus) &&
        decide (i.current_streak_seconds > 0)) &&
      !streakWindow i.current_streak_seconds 10 &&
      streakWindow i.current_streak_seconds 20 && milestoneGate s then
    ({ s with last_category := some i.current_category, last_nudge_time := some i.now },
      some .milestone20)
  else if (decide (i.current_category = Cat.focus) &&
        decide (i.current_streak_seconds > 0)) &&
      !streakWindow i.current_streak_seconds 10 &&
      !streakWindow i.current_streak_seconds 20 &&
      streakWindow i.current_streak_seconds 30 && milestoneGate s then
    ({ s with last_category := some i.current_category, last_nudge_time := some i.now },
      some .milestone30)
  -- goal-alignment praise from profile keywords
  else if (decide (i.current_category = Cat.focus) &&
        keywordAligned i.goal_profile i.active_window) && milestoneGate s then
    ({ s with last_category := some i.current_category, last_nudge_time := some i.now },
      some .goalAlignment)
  else
    -- fall-through: clear the drift flag on return to focus, remember category
    ({ s with
        drift_detected :=
          if decide (i.current_category = Cat.focus) && s.drift_detected then false
          else s.drift_detected,
        last_category := some i.current_category }, none)

/-- Method `NudgeEngine.get_nudge`: the 60s global cooldown returns early (mutating
nothing), otherwise the body runs. -/
def get_nudge (s : EngineState) (i : NudgeCall) : EngineState × Option NudgeMsg :=
  match s.last_nudge_time with
  | some t => if i.now - t < 60 then (s, none) else getNudgeBody s i
  | none => getNudgeBody s i

/-- Times (the call's `now`) at which a sequence of `get_nudge` calls fired. -/
def nudgeFireTimes (s : EngineState) : List NudgeCall → List ℚ
  | [] => []
  | i :: rest =>
    if (get_nudge s i).2.isSome then i.now :: nudgeFireTimes (get_nudge s i).1 rest
    else nudgeFireTimes (get_nudge s i).1 rest

/-- A call shape used in concrete runs: only the completion flag and time vary. -/
def celebCall (now : ℚ) : NudgeCall :=
  { now := now, current_category := .neutral, previous_category := none,
    current_streak_seconds := 0, goal_profile := none,
    distraction_time_minutes := 0, active_window := none, daily_complete := true }

/-! ## SmartNudgeAgent (`agents/smart_nudge.py`)

The escalation controller.  External collaborators appear as inputs (the
database's nudge-settings flag, the active tab URL pulled from the collector's
metrics, whether the AppleScript tab close succeeds) or as boolean result
fields (notification sent, XP penalty reported, tab close attempted). -/

/-- List `self.distractor_sites` of `SmartNudgeAgent.__init__`. -/
def distractor_sites : List String :=
  ["netflix.com", "youtube.com", "reddit.com",
   "twitter.com", "x.com", "instagram.com",
   "facebook.com", "tiktok.com", "twitch.tv"]

/-- Constant `self.escalation_interval` (seconds between escalation levels). -/
def escalation_interval : ℚ := 60

/-- The agent's escalation state: `self.nudge_level` and `self.last_nudge_time`. -/
structure AgentState where
  nudge_level : Nat
  last_nudge_time : Option ℚ
deriving DecidableEq, Repr

/-- Constructor `SmartNudgeAgent.__init__`: level 0, no nudge time. -/
def initAgent : AgentState := { nudge_level := 0, last_nudge_time := none }

/-- The `action` field of the returned nudge dict. -/
inductive AgentAction where
  | notify
  | intervene
  | strictIntervention
deriving DecidableEq, Repr

/-- The dict `process` returns, plus the side effects the tick performed on
the external sinks. -/
structure AgentResult where
  nudge_needed : Bool
  level : Option Nat
  action : Option AgentAction
  notified : Bool
  penalized : Bool
  close_attempted : Bool
deriving DecidableEq, Repr

/-- The `{"nudge_needed": False}` result (no side effects). -/
def noNudge : AgentResult :=
  { nudge_needed := false, level := none, action := none,
    notified := false, penalized := false, close_attempted := false }

/-- One `process` call's inputs: the clock, the database's Smart-Nudge enabled
flag, the flow (strict mode) flag, the collector's
`metrics["current_status"]["active_tab_url"]` (empty when absent), and whether
the level-3 AppleScript tab close would succeed. -/
structure AgentCall where
  now : ℚ
  settings_enabled : Bool
  is_flow_active : Bool
  active_tab_url : String
  close_success : Bool
deriving Repr

/-- Method `SmartNudgeAgent._is_off_track`: empty tab is on track, the
`PERMISSION_ERROR` sentinel is off track, otherwise any distractor site as a
substring of the lowercased tab URL is off track. -/
def is_off_track (active_tab_url : String) : Bool :=
  if active_tab_url = "" then false
  else if active_tab_url = "PERMISSION_ERROR" then true
  else distractor_sites.any fun d => strContains (lowerL active_tab_url) d.data

/-- Method `SmartNudgeAgent._get_current_distractor`: the sentinel, or the raw tab
URL when it contains a distractor site, or the fallback `"distractor site"`. -/
def get_current_distractor (active_tab_url : String) : String :=
  if active_tab_url ≠ "" then
    if active_tab_url = "PERMISSION_ERROR" then "PERMISSION_ERROR"
    else if distractor_sites.any fun d => strContains (lowerL active_tab_url) d.data then
      active_tab_url
    else "distractor site"
  else "distractor site"

/-- Method `SmartNudgeAgent._should_escalate`: no previous nudge, or the escalation
interval has elapsed. -/
def should_escalate (s : AgentState) (now : ℚ) : Bool :=
  match s.last_nudge_time with
  | none => true
  | some t => decide (now - t ≥ escalation_interval)

/-- Method `SmartNudgeAgent._load_state`: restore the stored nudge time only when it
is fresher than one hour; `nudge_level` is left alone. -/
def load_state (s : AgentState) (db_last_nudge : Option ℚ) (now : ℚ) : AgentState :=
  match db_last_nudge with
  | none => s
  | some t => if now - t < 3600 then { s with last_nudge_time := some t } else s

/-- Method `SmartNudgeAgent._handle_strict_mode`: any distractor other than the
generic fallback draws an immediate XP penalty, a tab close when the
distractor string contains `"http"`, and a notification — with no time check
and no change to the escalation state. -/
def handle_strict_mode (s : AgentState) (i : AgentCall) : AgentState × AgentResult :=
  let distractor := get_current_distractor i.active_tab_url
  if distractor ≠ "" ∧ distractor ≠ "distractor site" then
    (s, { nudge_needed := true, level := some 3, action := some .strictIntervention,
          notified := true, penalized := true,
          close_attempted := strContains distractor.data "http".data })
  else (s, noNudge)

/-- Method `SmartNudgeAgent.process` for a tick of an already-loaded user (the
user-change reload of lines 114-117 is `load_state`, composed explicitly
where a claim needs it).  Disabled settings return early; an active flow
session is handled by strict mode; otherwise the normal-mode ladder runs. -/
def agentProcess (s : AgentState) (i : AgentCall) : AgentState × AgentResult :=
  if ¬ i.settings_enabled then (s, noNudge)
  else if i.is_flow_active then handle_strict_mode s i
  else if ¬ is_off_track i.active_tab_url then
    -- back on track: reset only when the level is positive
    (if s.nudge_level > 0 then { nudge_level := 0, last_nudge_time := none } else s,
      noNudge)
  else
    let distractor := get_current_distractor i.active_tab_url
    if distractor = "PERMISSION_ERROR" then
      (s, { nudge_needed := true, level := some 1, action := some .notify,
            notified := false, penalized := false, close_attempted := false })
    else if should_escalate s i.now then
      let lvl := min (s.nudge_level + 1) 3
      let s' : AgentState := { nudge_level := lvl, last_nudge_time := some i.now }
      if lvl = 1 then
        (s', { nudge_needed := true, level := some 1, action := some .notify,
               notified := true, penalized := false, close_attempted := false })
      else if lvl = 2 then
        (s', { nudge_needed := true, level := some 2, action := some .notify,
               notified := true, penalized := false, close_attempted := false })
      else if lvl = 3 then
        (s', { nudge_needed := true, level := some 3,
               action := some (if i.close_success then .intervene else .notify),
               notified := true, penalized := false, close_attempted := true })
      else (s', noNudge)
    else (s, noNudge)

/-! ## Helper lemmas -/

/-- Reading a key back after `usageUpdate` sees the updated record. -/
lemma usageFind_usageUpdate (m : List (String × AppUsage)) (k : String)
    (f : AppUsage → AppUsage) : usageFind (usageUpdate m k f) k = f (usageFind m k) := by
  induction m with
  | nil => simp [usageUpdate, usageFind]
  | cons hd tl ih =>
    obtain ⟨k0, v⟩ := hd
    by_cases hk : k0 = k <;> simp [usageUpdate, usageFind, hk, ih]

/-- A non-focus sample always gets streak duration 0 back from `_update_streak`. -/
lemma updateStreak_nonfocus (start0 : Option ℚ) (cat0 : Option Cat) (longest0 : ℚ)
    (category : Cat) (ts : ℚ) (h : category ≠ Cat.focus) :
    (updateStreak start0 cat0 longest0 category ts).streak_seconds = 0 := by
  rcases start0 with _ | t0 <;> by_cases hc0 : cat0 = some Cat.focus <;>
    simp [updateStreak, h, hc0]

/-- Method `_update_streak` never lowers the longest-streak high-water mark. -/
lemma updateStreak_longest_mono (start0 : Option ℚ) (cat0 : Option Cat) (longest0 : ℚ)
    (category : Cat) (ts : ℚ) :
    longest0 ≤ (updateStreak start0 cat0 longest0 category ts).longest := by
  rcases start0 with _ | t0 <;> by_cases hc : category = Cat.focus <;>
    by_cases hc0 : cat0 = some Cat.focus <;>
    simp [updateStreak, hc, hc0] <;>
    split_ifs <;> linarith

/-- The streak fields of the state returned by `record_activity` come from
`_update_streak` on the previous state. -/
lemma record_activity_streak_eq (s : TrackerState) (title : String) (ts : ℚ) :
    (record_activity s title ts).1.longest_focus_streak_seconds =
      (updateStreak s.current_streak_start s.current_streak_category
        s.longest_focus_streak_seconds (categorize title s.current_profile) ts).longest := rfl

/-- One `record_activity` call never lowers the longest-streak high-water mark. -/
lemma record_longest_mono (s : TrackerState) (title : String) (ts : ℚ) :
    s.longest_focus_streak_seconds ≤
      (record_activity s title ts).1.longest_focus_streak_seconds := by
  rw [record_activity_streak_eq]
  exact updateStreak_longest_mono _ _ _ _ _

/-- Folding any sample list never lowers the longest-streak high-water mark. -/
lemma runRecord_longest_mono (calls : List (String × ℚ)) : ∀ s : TrackerState,
    s.longest_focus_streak_seconds ≤ (runRecord s calls).longest_focus_streak_seconds := by
  induction calls with
  | nil => intro s; exact le_refl _
  | cons c rest ih =>
    intro s
    obtain ⟨w, t⟩ := c
    exact le_trans (record_longest_mono s w t) (ih _)

/-- When `_update_streak` changes the high-water mark (from a non-negative
value), the sample is focus, a focus streak was already open, and the new mark
is the extended streak's duration. -/
lemma updateStreak_longest_change (start0 : Option ℚ) (cat0 : Option Cat) (longest0 : ℚ)
    (category : Cat) (ts : ℚ) (h0 : 0 ≤ longest0)
    (h : (updateStreak start0 cat0 longest0 category ts).longest ≠ longest0) :
    category = Cat.focus ∧ cat0 = some Cat.focus ∧
      ∃ t0, start0 = some t0 ∧
        (updateStreak start0 cat0 longest0 category ts).longest = ts - t0 ∧
        longest0 < ts - t0 := by
  by_cases hc : category = Cat.focus
  · rcases start0 with _ | t0
    · exfalso
      apply h
      have hl : (updateStreak none cat0 longest0 category ts).longest =
          if ts - ts > longest0 then ts - ts else longest0 := by
        simp [updateStreak, hc]
      rw [hl, sub_self]
      exact if_neg (by linarith)
    · by_cases hc0 : cat0 = some Cat.focus
      · have hl : (updateStreak (some t0) cat0 longest0 category ts).longest =
            if ts - t0 > longest0 then ts - t0 else longest0 := by
          simp [updateStreak, hc, hc0]
        by_cases hgt : ts - t0 > longest0
        · exact ⟨hc, hc0, t0, rfl, by rw [hl, if_pos hgt], hgt⟩
        · exact absurd (by rw [hl]; exact if_neg hgt) h
      · exact absurd (by simp [updateStreak, hc, hc0]) h
  · exfalso
    apply h
    rcases start0 with _ | t0
    · simp [updateStreak, hc]
    · by_cases hc0 : cat0 = some Cat.focus <;> simp [updateStreak, hc, hc0]

/-! ## Claim C10 -/

/-- C10: `BehaviorTracker.reset` clears the event log, session start, current
window and category, the whole streak state (including the longest-streak
high-water mark), the app-usage map and the drift events, while the goal
state — current goal, current profile, goal start time and daily goal
minutes — is left unchanged. -/
theorem C10_reset_clears_tracking_keeps_goal (s : TrackerState) :
    (trackerReset s).events = [] ∧
    (trackerReset s).session_start = none ∧
    (trackerReset s).current_window = none ∧
    (trackerReset s).current_category = none ∧
    (trackerReset s).current_streak_start = none ∧
    (trackerReset s).current_streak_category = none ∧
    (trackerReset s).last_poll_time = none ∧
    (trackerReset s).longest_focus_streak_seconds = 0 ∧
    (trackerReset s).app_usage = [] ∧
    (trackerReset s).drift_events = [] ∧
    (trackerReset s).current_goal = s.current_goal ∧
    (trackerReset s).current_profile = s.current_profile ∧
    (trackerReset s).goal_start_time = s.goal_start_time ∧
    (trackerReset s).daily_goal_minutes = s.daily_goal_minutes :=
  ⟨rfl, rfl, rfl, rfl, rfl, rfl, rfl, rfl, rfl, rfl, rfl, rfl, rfl, rfl⟩

/-! ## Claim C5 -/

/-- C5: every event produced by `record_activity` whose category is not focus
carries `streak_seconds = 0`; since this holds for each single call, it holds
for this and every later non-focus sample of any call sequence. -/
theorem C5_nonfocus_event_streak_zero (s : TrackerState) (title : String) (ts : ℚ)
    (h : (record_activity s title ts).2.category ≠ Cat.focus) :
    (record_activity s title ts).2.streak_seconds = 0 := by
  have hev : (record_activity s title ts).2.streak_seconds =
      (updateStreak s.current_streak_start s.current_streak_category
        s.longest_focus_streak_seconds (categorize title s.current_profile) ts).streak_seconds :=
    rfl
  have hcat : (record_activity s title ts).2.category =
      categorize title s.current_profile := rfl
  rw [hev]
  exact updateStreak_nonfocus _ _ _ _ _ (hcat ▸ h)

/-- C5 witness: a YouTube sample on a fresh tracker is a distraction event
with zero streak. -/
theorem C5_nonfocus_event_streak_zero_witness :
    (record_activity initTracker "YouTube" 0).2.category ≠ Cat.focus ∧
    (record_activity initTracker "YouTube" 0).2.streak_seconds = 0 :=
  ⟨by decide, C5_nonfocus_event_streak_zero initTracker "YouTube" 0 (by decide)⟩

/-! ## Claim C4 -/

/-- C4 counterexample: two consecutive `record_activity` calls for the same
window title: the second sample is not an app switch, yet its `usage_count`
still goes from 1 to 2, contradicting "incremented iff the window changed". -/
theorem C4_counterexample :
    (record_activity (record_activity initTracker "Cursor" 0).1 "Cursor" 5).2.is_app_switch
        = false ∧
    (usageFind (record_activity initTracker "Cursor" 0).1.app_usage "Cursor").usage_count
        = 1 ∧
    (usageFind (record_activity (record_activity initTracker "Cursor" 0).1
        "Cursor" 5).1.app_usage "Cursor").usage_count = 2 := by
  decide

/-- C4 (amended): for every non-empty window title, the title's usage record
gains the computed duration on `total_seconds`, gains the duration on
`focus_seconds` exactly when the sample's category is focus, stores the
sample's category, and has `usage_count` incremented by one on every such
call — unconditionally, not only on app switches. -/
theorem C4_usage_record_update (s : TrackerState) (title : String) (ts : ℚ)
    (h : title ≠ "") :
    (usageFind (record_activity s title ts).1.app_usage title).total_seconds =
      (usageFind s.app_usage title).total_seconds +
        (record_activity s title ts).2.duration_seconds ∧
    (usageFind (record_activity s title ts).1.app_usage title).focus_seconds =
      (if (record_activity s title ts).2.category = Cat.focus then
        (usageFind s.app_usage title).focus_seconds +
          (record_activity s title ts).2.duration_seconds
      else (usageFind s.app_usage title).focus_seconds) ∧
    (usageFind (record_activity s title ts).1.app_usage title).category =
      (record_activity s title ts).2.category ∧
    (usageFind (record_activity s title ts).1.app_usage title).usage_count =
      (usageFind s.app_usage title).usage_count + 1 := by
  have husage : (record_activity s title ts).1.app_usage =
      usageUpdate s.app_usage title (fun u =>
        { total_seconds := u.total_seconds + (record_activity s title ts).2.duration_seconds,
          focus_seconds :=
            if (record_activity s title ts).2.category = Cat.focus then
              u.focus_seconds + (record_activity s title ts).2.duration_seconds
            else u.focus_seconds,
          category := (record_activity s title ts).2.category,
          usage_count := u.usage_count + 1 }) := by
    simp only [record_activity]
    simp [h]
  rw [husage, usageFind_usageUpdate]
  split <;> simp

/-- C4 (amended) witness: the first Cursor sample on a fresh tracker. -/
theorem C4_usage_record_update_witness :
    ("Cursor" : String) ≠ "" ∧
    ((usageFind (record_activity initTracker "Cursor" 3).1.app_usage "Cursor").total_seconds =
      (usageFind initTracker.app_usage "Cursor").total_seconds +
        (record_activity initTracker "Cursor" 3).2.duration_seconds ∧
    (usageFind (record_activity initTracker "Cursor" 3).1.app_usage "Cursor").focus_seconds =
      (if (record_activity initTracker "Cursor" 3).2.category = Cat.focus then
        (usageFind initTracker.app_usage "Cursor").focus_seconds +
          (record_activity initTracker "Cursor" 3).2.duration_seconds
      else (usageFind initTracker.app_usage "Cursor").focus_seconds) ∧
    (usageFind (record_activity initTracker "Cursor" 3).1.app_usage "Cursor").category =
      (record_activity initTracker "Cursor" 3).2.category ∧
    (usageFind (record_activity initTracker "Cursor" 3).1.app_usage "Cursor").usage_count =
      (usageFind initTracker.app_usage "Cursor").usage_count + 1) :=
  ⟨by decide, C4_usage_record_update initTracker "Cursor" 3 (by decide)⟩

/-! ## Claim C2 -/

/-- C2 counterexample: after a state restore puts a fresh `last_nudge_time`
back with level 0, an on-track tick returns "no nudge" but does not clear
`last_nudge_time`, contradicting "clears last_nudge_time ... including states
where level is already 0 but last_nudge_time is set". -/
theorem C2_counterexample :
    is_off_track "github.com" = false ∧
    (load_state initAgent (some 10) 100).nudge_level = 0 ∧
    (load_state initAgent (some 10) 100).last_nudge_time = some 10 ∧
    (agentProcess (load_state initAgent (some 10) 100)
      ⟨200, true, false, "github.com", false⟩).2.nudge_needed = false ∧
    (agentProcess (load_state initAgent (some 10) 100)
      ⟨200, true, false, "github.com", false⟩).1.last_nudge_time = some 10 := by
  decide

/-- C2 (amended): on any normal-mode tick with settings enabled where
`off_track` is false, `process` returns "no nudge" and resets
`(level, last_nudge_time)` to `(0, none)` only when the level was positive;
when the level is already 0 the state — including a restored
`last_nudge_time` — is left untouched. -/
theorem C2_on_track_reset (s : AgentState) (i : AgentCall)
    (hs : i.settings_enabled = true) (hf : i.is_flow_active = false)
    (ht : is_off_track i.active_tab_url = false) :
    (agentProcess s i).2 = noNudge ∧
    (0 < s.nudge_level → (agentProcess s i).1 = ⟨0, none⟩) ∧
    (s.nudge_level = 0 → (agentProcess s i).1 = s) := by
  by_cases h0 : 0 < s.nudge_level <;> simp_all [agentProcess]

/-- C2 (amended) witness: an on-track tick at level 2 resets the state. -/
theorem C2_on_track_reset_witness :
    (AgentCall.mk 100 true false "" false).settings_enabled = true ∧
    (AgentCall.mk 100 true false "" false).is_flow_active = false ∧
    is_off_track (AgentCall.mk 100 true false "" false).active_tab_url = false ∧
    ((agentProcess ⟨2, some 0⟩ (AgentCall.mk 100 true false "" false)).2 = noNudge ∧
      (0 < (2 : Nat) →
        (agentProcess ⟨2, some 0⟩ (AgentCall.mk 100 true false "" false)).1 = ⟨0, none⟩) ∧
      ((2 : Nat) = 0 →
        (agentProcess ⟨2, some 0⟩ (AgentCall.mk 100 true false "" false)).1 = ⟨2, some 0⟩)) :=
  ⟨rfl, rfl, by decide,
    C2_on_track_reset ⟨2, some 0⟩ (AgentCall.mk 100 true false "" false) rfl rfl (by decide)⟩

/-! ## Claim C1 -/

/-- C1 counterexample: with a recent `last_nudge_time` (30s ago, interval 60s)
and the `PERMISSION_ERROR` sentinel as the active tab, the tick is off-track
and the interval has not elapsed, yet `process` still emits a level-1 nudge —
contradicting "if off_track is true but the interval has not elapsed ... no
nudge is emitted". -/
theorem C1_counterexample :
    is_off_track "PERMISSION_ERROR" = true ∧
    should_escalate ⟨0, some 0⟩ 30 = false ∧
    (agentProcess ⟨0, some 0⟩ ⟨30, true, false, "PERMISSION_ERROR", false⟩).2.nudge_needed
        = true ∧
    (agentProcess ⟨0, some 0⟩ ⟨30, true, false, "PERMISSION_ERROR", false⟩).1 =
      ⟨0, some 0⟩ := by
  decide

/-- C1 (amended): on a normal-mode off-track tick the level never exceeds 3;
when the detected distractor is the `PERMISSION_ERROR` sentinel, a level-1
permission nudge is emitted with the escalation state untouched, regardless of
the interval; otherwise the level steps to `min(level+1, 3)` with
`last_nudge_time := now` exactly when no previous nudge time exists or the
60s escalation interval has elapsed, and an off-track tick inside the interval
changes nothing and emits nothing. -/
theorem C1_escalation_ladder (s : AgentState) (i : AgentCall)
    (hs : i.settings_enabled = true) (hf : i.is_flow_active = false)
    (ht : is_off_track i.active_tab_url = true) (hlvl : s.nudge_level ≤ 3) :
    (agentProcess s i).1.nudge_level ≤ 3 ∧
    (get_current_distractor i.active_tab_url = "PERMISSION_ERROR" →
      (agentProcess s i).1 = s ∧
      (agentProcess s i).2.nudge_needed = true ∧
      (agentProcess s i).2.level = some 1) ∧
    (get_current_distractor i.active_tab_url ≠ "PERMISSION_ERROR" →
      (should_escalate s i.now = true →
        (agentProcess s i).1.nudge_level = min (s.nudge_level + 1) 3 ∧
        (agentProcess s i).1.last_nudge_time = some i.now ∧
        (agentProcess s i).2.nudge_needed = true) ∧
      (should_escalate s i.now = false →
        (agentProcess s i).1 = s ∧ (agentProcess s i).2.nudge_needed = false)) := by
  by_cases hperm : get_current_distractor i.active_tab_url = "PERMISSION_ERROR"
  · refine ⟨?_, fun _ => ?_, fun hne => absurd hperm hne⟩ <;>
      simp_all [agentProcess]
  · by_cases hesc : should_escalate s i.now
    · have hmin : min (s.nudge_level + 1) 3 = 1 ∨ min (s.nudge_level + 1) 3 = 2 ∨
          min (s.nudge_level + 1) 3 = 3 := by omega
      refine ⟨?_, fun hp => absurd hp hperm, fun _ => ⟨fun _ => ?_, fun hne => ?_⟩⟩
      · rcases hmin with h1 | h1 | h1 <;> simp_all [agentProcess]
      · rcases hmin with h1 | h1 | h1 <;> simp_all [agentProcess]
      · simp_all
    · refine ⟨?_, fun hp => absurd hp hperm, fun _ => ⟨fun habs => ?_, fun _ => ?_⟩⟩ <;>
        simp_all [agentProcess, noNudge]

/-- C1 (amended) witness: level 1, interval elapsed, a YouTube tab: the tick
escalates to level 2 at the new nudge time. -/
theorem C1_escalation_ladder_witness :
    (AgentCall.mk 100 true false "youtube.com" false).settings_enabled = true ∧
    (AgentCall.mk 100 true false "youtube.com" false).is_flow_active = false ∧
    is_off_track "youtube.com" = true ∧
    (AgentState.mk 1 (some 0)).nudge_level ≤ 3 ∧
    ((agentProcess ⟨1, some 0⟩ (AgentCall.mk 100 true false "youtube.com" false)).1.nudge_level
        ≤ 3 ∧
      (get_current_distractor "youtube.com" = "PERMISSION_ERROR" →
        (agentProcess ⟨1, some 0⟩ (AgentCall.mk 100 true false "youtube.com" false)).1 =
          ⟨1, some 0⟩ ∧
        (agentProcess ⟨1, some 0⟩
          (AgentCall.mk 100 true false "youtube.com" false)).2.nudge_needed = true ∧
        (agentProcess ⟨1, some 0⟩
          (AgentCall.mk 100 true false "youtube.com" false)).2.level = some 1) ∧
      (get_current_distractor "youtube.com" ≠ "PERMISSION_ERROR" →
        (should_escalate ⟨1, some 0⟩ 100 = true →
          (agentProcess ⟨1, some 0⟩
            (AgentCall.mk 100 true false "youtube.com" false)).1.nudge_level =
              min (1 + 1) 3 ∧
          (agentProcess ⟨1, some 0⟩
            (AgentCall.mk 100 true false "youtube.com" false)).1.last_nudge_time =
              some 100 ∧
          (agentProcess ⟨1, some 0⟩
            (AgentCall.mk 100 true false "youtube.com" false)).2.nudge_needed = true) ∧
        (should_escalate ⟨1, some 0⟩ 100 = false →
          (agentProcess ⟨1, some 0⟩ (AgentCall.mk 100 true false "youtube.com" false)).1 =
            ⟨1, some 0⟩ ∧
          (agentProcess ⟨1, some 0⟩
            (AgentCall.mk 100 true false "youtube.com" false)).2.nudge_needed = false))) :=
  ⟨rfl, rfl, by decide, by decide,
    C1_escalation_ladder ⟨1, some 0⟩ (AgentCall.mk 100 true false "youtube.com" false)
      rfl rfl (by decide) (by decide)⟩

/-! ## Claim C3 -/

/-- C3 counterexample: with the flow (deep-focus) flag active and a distractor
tab, two consecutive ticks only 5 seconds apart both fire a strict-mode
intervention — there is no strict-mode cooldown, contradicting "two
strict-mode interventions are never fired less than 60 seconds apart". -/
theorem C3_counterexample :
    (agentProcess initAgent
      ⟨0, true, true, "https://youtube.com/watch", false⟩).2.nudge_needed = true ∧
    (agentProcess
      (agentProcess initAgent ⟨0, true, true, "https://youtube.com/watch", false⟩).1
      ⟨5, true, true, "https://youtube.com/watch", false⟩).2.nudge_needed = true ∧
    ((5 : ℚ) - 0 < 60) := by
  refine ⟨by decide, by decide, by decide⟩

/-- C3 (amended): with the deep-focus flag set, every tick whose detected
distractor is not the generic fallback immediately fires the strict
intervention — XP penalty, tab close attempt exactly when the distractor
string contains `"http"`, and a notification — leaving the escalation state
untouched; there is no strict-mode cooldown of any kind. -/
theorem C3_strict_mode_no_cooldown (s : AgentState) (i : AgentCall)
    (hs : i.settings_enabled = true) (hf : i.is_flow_active = true)
    (hd : get_current_distractor i.active_tab_url ≠ "distractor site") :
    (agentProcess s i).1 = s ∧
    (agentProcess s i).2 =
      { nudge_needed := true, level := some 3, action := some .strictIntervention,
        notified := true, penalized := true,
        close_attempted :=
          strContains (get_current_distractor i.active_tab_url).data "http".data } := by
  have hne : get_current_distractor i.active_tab_url ≠ "" := by
    unfold get_current_distractor
    split_ifs with h1 h2 h3 <;> simp_all
  simp [agentProcess, hs, hf, handle_strict_mode, hd, hne]

/-- C3 (amended) witness: strict mode with an X tab fires the intervention and
attempts the tab close. -/
theorem C3_strict_mode_no_cooldown_witness :
    (AgentCall.mk 0 true true "https://x.com/feed" true).settings_enabled = true ∧
    (AgentCall.mk 0 true true "https://x.com/feed" true).is_flow_active = true ∧
    get_current_distractor "https://x.com/feed" ≠ "distractor site" ∧
    ((agentProcess ⟨0, none⟩ (AgentCall.mk 0 true true "https://x.com/feed" true)).1 =
        ⟨0, none⟩ ∧
      (agentProcess ⟨0, none⟩ (AgentCall.mk 0 true true "https://x.com/feed" true)).2 =
        { nudge_needed := true, level := some 3,
          action := some AgentAction.strictIntervention, notified := true,
          penalized := true,
          close_attempted :=
            strContains (get_current_distractor "https://x.com/feed").data "http".data }) :=
  ⟨rfl, rfl, by decide,
    C3_strict_mode_no_cooldown ⟨0, none⟩ (AgentCall.mk 0 true true "https://x.com/feed" true)
      rfl rfl (by decide)⟩

/-! ## Claim C6 -/

/-- C6: `longest_focus_streak_seconds` never decreases across any sequence of
`record_activity` calls, and a single call changes it only while extending an
already-open focus streak — the sample is focus, the open streak is a focus
streak, and the new value is the extended streak's duration. -/
theorem C6_longest_streak_monotone (s : TrackerState)
    (h0 : 0 ≤ s.longest_focus_streak_seconds) :
    (∀ calls : List (String × ℚ),
      s.longest_focus_streak_seconds ≤
        (runRecord s calls).longest_focus_streak_seconds) ∧
    (∀ title ts,
      (record_activity s title ts).1.longest_focus_streak_seconds ≠
          s.longest_focus_streak_seconds →
      categorize title s.current_profile = Cat.focus ∧
      s.current_streak_category = some Cat.focus ∧
      ∃ t0, s.current_streak_start = some t0 ∧
        (record_activity s title ts).1.longest_focus_streak_seconds = ts - t0 ∧
        s.longest_focus_streak_seconds < ts - t0) := by
  refine ⟨fun calls => runRecord_longest_mono calls s, fun title ts h => ?_⟩
  rw [record_activity_streak_eq] at h ⊢
  exact updateStreak_longest_change s.current_streak_start s.current_streak_category
    s.longest_focus_streak_seconds (categorize title s.current_profile) ts h0 h

/-- C6 witness: instantiated at the open-streak state reached after one focus
sample at time 0. -/
theorem C6_longest_streak_monotone_witness :
    0 ≤ streakWitState.longest_focus_streak_seconds ∧
    ((∀ calls : List (String × ℚ),
      streakWitState.longest_focus_streak_seconds ≤
        (runRecord streakWitState calls).longest_focus_streak_seconds) ∧
    (∀ title ts,
      (record_activity streakWitState title ts).1.longest_focus_streak_seconds ≠
          streakWitState.longest_focus_streak_seconds →
      categorize title streakWitState.current_profile = Cat.focus ∧
      streakWitState.current_streak_category = some Cat.focus ∧
      ∃ t0, streakWitState.current_streak_start = some t0 ∧
        (record_activity streakWitState title ts).1.longest_focus_streak_seconds = ts - t0 ∧
        streakWitState.longest_focus_streak_seconds < ts - t0)) :=
  ⟨by decide, C6_longest_streak_monotone streakWitState (by decide)⟩

/-! ## Claim C7 -/

/-- C7 counterexample: the window title `"disney"` categorizes as distraction,
because the built-in keyword `"disney+"` is compiled as a regex in which `+`
means one-or-more `y`; under the claim's case-insensitive substring matching
the title matches no table and would be neutral. -/
theorem C7_counterexample :
    categorize "disney" none = Cat.distraction ∧
    categorizeClaimSub "disney" none = Cat.neutral := by
  refine ⟨by decide, by decide⟩

/-- C7 (amended): `categorize` is deterministic first-match-wins over the
stated priority order — self identifiers, then profile focus/distraction/
neutral/keyword lists, then built-in focus/distraction/neutral tables, then
neutral, with empty titles neutral — where the self-identifier and profile
tests are case-insensitive substring matches but the built-in tables are
regex searches (`.` wildcard, `+` repetition). -/
theorem C7_categorize_priority (t : String) (p : Option GoalProfile) :
    categorize t p = categorizeAmended t p := by
  cases p <;> rfl

/-! ## Claim C8 -/

/-- C8 counterexample: with the daily goal complete and flag conditions
unchanged (same completion), the celebration fires at time 0 and again at
time 301 — it does not fire at most once per completion. -/
theorem C8_counterexample :
    (get_nudge initEngine (celebCall 0)).2 = some NudgeMsg.celebration ∧
    (get_nudge (get_nudge initEngine (celebCall 0)).1 (celebCall 301)).2 =
      some NudgeMsg.celebration := by
  refine ⟨by decide, by decide⟩

/-- C8 (amended): the completion celebration is evaluated first among all
nudge classes and, whenever `daily_complete` holds, the drift flag is clear
and more than 300 seconds (the extra 5-minute gate on top of the 60s global
cooldown) have passed since the last nudge — or none was ever sent — it
fires, every time those gates reopen, with no once-per-completion latch. -/
theorem C8_celebration_refire (s : EngineState) (i : NudgeCall)
    (hdc : i.daily_complete = true) (hdrift : s.drift_detected = false)
    (hgap : noneOrGapGT s.last_nudge_time i.now 300 = true) :
    get_nudge s i = ({ s with last_nudge_time := some i.now }, some .celebration) := by
  rcases hlast : s.last_nudge_time with _ | t
  · simp only [get_nudge, hlast]
    simp [getNudgeBody, hdc, hdrift, hlast, noneOrGapGT]
  · have h300 : i.now - t > 300 := by
      rw [hlast] at hgap; simpa [noneOrGapGT] using hgap
    have h60 : ¬ (i.now - t < 60) := by linarith
    simp only [get_nudge, hlast, if_neg h60]
    simp [getNudgeBody, hdc, hdrift, hlast, noneOrGapGT, h300]

/-- C8 (amended) witness: a fresh engine with the goal complete fires the
celebration immediately. -/
theorem C8_celebration_refire_witness :
    (celebCall 5).daily_complete = true ∧
    initEngine.drift_detected = false ∧
    noneOrGapGT initEngine.last_nudge_time (celebCall 5).now 300 = true ∧
    get_nudge initEngine (celebCall 5) =
      ({ initEngine with last_nudge_time := some (celebCall 5).now },
        some NudgeMsg.celebration) :=
  ⟨rfl, rfl, by decide, C8_celebration_refire initEngine (celebCall 5) rfl rfl (by decide)⟩

/-! ## Claim C9 -/

/-- Every firing branch of the body stamps `last_nudge_time` with the call's
time. -/
lemma getNudgeBody_fire_last (s : EngineState) (i : NudgeCall) (m : NudgeMsg)
    (h : (getNudgeBody s i).2 = some m) :
    (getNudgeBody s i).1.last_nudge_time = some i.now := by
  unfold getNudgeBody at h ⊢
  split_ifs at h ⊢ <;> simp_all

/-- A body call that fires nothing leaves `last_nudge_time` alone. -/
lemma getNudgeBody_none_last (s : EngineState) (i : NudgeCall)
    (h : (getNudgeBody s i).2 = none) :
    (getNudgeBody s i).1.last_nudge_time = s.last_nudge_time := by
  unfold getNudgeBody at h ⊢
  split_ifs at h ⊢ <;> simp_all

/-- A `get_nudge` call that fires stamps `last_nudge_time := now` and can only
have passed the 60s global cooldown against the previous stamp. -/
lemma get_nudge_fire (s : EngineState) (i : NudgeCall) (m : NudgeMsg)
    (h : (get_nudge s i).2 = some m) :
    (get_nudge s i).1.last_nudge_time = some i.now ∧
    (∀ t, s.last_nudge_time = some t → 60 ≤ i.now - t) := by
  rcases hlast : s.last_nudge_time with _ | t
  · simp only [get_nudge, hlast] at h ⊢
    exact ⟨getNudgeBody_fire_last s i m h, fun t ht => Option.noConfusion ht⟩
  · by_cases hcd : i.now - t < 60
    · simp only [get_nudge, hlast, if_pos hcd] at h
      exact Option.noConfusion h
    · simp only [get_nudge, hlast, if_neg hcd] at h ⊢
      refine ⟨getNudgeBody_fire_last s i m h, fun t' ht' => ?_⟩
      cases ht'
      linarith

/-- A `get_nudge` call that fires nothing leaves `last_nudge_time` alone. -/
lemma get_nudge_none_last (s : EngineState) (i : NudgeCall)
    (h : (get_nudge s i).2 = none) :
    (get_nudge s i).1.last_nudge_time = s.last_nudge_time := by
  rcases hlast : s.last_nudge_time with _ | t
  · simp only [get_nudge, hlast] at h ⊢
    rw [getNudgeBody_none_last s i h, hlast]
  · by_cases hcd : i.now - t < 60
    · simp only [get_nudge, hlast, if_pos hcd] at h ⊢
    · simp only [get_nudge, hlast, if_neg hcd] at h ⊢
      rw [getNudgeBody_none_last s i h, hlast]

/-- The engine's recorded stamp heads the fire-time chain: from any state, the
previous stamp (if any) followed by all later fire times is 60s-separated. -/
lemma fireTimes_chain (inputs : List NudgeCall) : ∀ s : EngineState,
    List.Chain' (fun a b => 60 ≤ b - a)
      (s.last_nudge_time.toList ++ nudgeFireTimes s inputs) := by
  induction inputs with
  | nil =>
    intro s
    rcases s.last_nudge_time with _ | t <;> simp [nudgeFireTimes]
  | cons i rest ih =>
    intro s
    by_cases hfire : (get_nudge s i).2.isSome
    · obtain ⟨m, hm⟩ := Option.isSome_iff_exists.mp hfire
      have hstep : nudgeFireTimes s (i :: rest) =
          i.now :: nudgeFireTimes (get_nudge s i).1 rest := by
        simp [nudgeFireTimes, hfire]
      obtain ⟨hstamp, hgap⟩ := get_nudge_fire s i m hm
      have hchain := ih (get_nudge s i).1
      rw [hstamp] at hchain
      rw [hstep]
      rcases hls : s.last_nudge_time with _ | t
      · simpa using hchain
      · simp only [Option.toList, List.cons_append, List.nil_append] at hchain ⊢
        exact List.chain'_cons.mpr ⟨by have := hgap t hls; linarith, by simpa using hchain⟩
    · have hnone : (get_nudge s i).2 = none := Option.not_isSome_iff_eq_none.mp hfire
      have hstep : nudgeFireTimes s (i :: rest) =
          nudgeFireTimes (get_nudge s i).1 rest := by
        simp [nudgeFireTimes, hnone]
      have hlast := get_nudge_none_last s i hnone
      have hchain := ih (get_nudge s i).1
      rw [hlast] at hchain
      rw [hstep]
      exact hchain

/-- C9: over any sequence of `get_nudge` calls on a fresh engine, consecutive
fired nudges — of any class — have `last_nudge_time` stamps at least the 60s
global cooldown apart. -/
theorem C9_global_cooldown_chain (inputs : List NudgeCall) :
    List.Chain' (fun a b => 60 ≤ b - a) (nudgeFireTimes initEngine inputs) := by
  have h := fireTimes_chain inputs initEngine
  simpa [initEngine] using h
